import Mathlib

/-!
Verification of the saorsa-node core against its specification.

This file gives a shallow embedding of the parts of the node that the
verified properties talk about: the quantum (primary) client
(src/src/client/quantum.rs), the legacy client (src/src/client/legacy.rs),
the hybrid router (src/src/client/hybrid.rs), the payment verifier and its
LRU cache (src/src/payment/verifier.rs, src/src/payment/cache.rs), the
release-signature entry point (src/src/upgrade/signature.rs) and the
migration record processor (src/src/migration/mod.rs).

External capabilities (the primary DHT, the sha2/rmp_serde/ant_evm/evmlib
crates, ML-DSA, the filesystem) are modelled as explicit parameters or as
ideal data per the interface section of the spec; every such definition
carries a comment saying what it stands for.
-/

namespace SaorsaNode

/-- Bytes are modelled as natural numbers; all byte strings are `List Byte`. -/
abbrev Byte := Nat

/-- Content-addressed identifier, `pub type XorName = [u8; 32]` in
src/src/client/data_types.rs. Fixed length is not enforced by the model. -/
abbrev XorName := List Byte

/-- Modelled from the spec: the error taxonomy of spec section 7.  The file
src/src/error.rs is not part of the source dump; the constructors are exactly
those applied throughout src (`Error::Network`, `Error::Serialization`,
`Error::Crypto`, `Error::Payment`, `Error::Migration`), each carrying a
human-readable message. -/
inductive Error where
  | Network : String → Error
  | Serialization : String → Error
  | Crypto : String → Error
  | Payment : String → Error
  | Migration : String → Error
deriving DecidableEq

/-- `DataSource` from src/src/client/data_types.rs: the network a record was
retrieved from (`Saorsa` is the primary network, `Autonomi` the legacy one). -/
inductive DataSource where
  | Saorsa
  | Autonomi
  | Cache
deriving DecidableEq

/-- `DataChunk` from src/src/client/data_types.rs. -/
structure DataChunk where
  address : XorName
  content : List Byte
  source : DataSource
deriving DecidableEq

/-- `ScratchpadEntry` from src/src/client/data_types.rs. -/
structure ScratchpadEntry where
  owner : List Byte
  content_type : Nat
  payload : List Byte
  counter : Nat
  signature : List Byte
  source : DataSource
deriving DecidableEq

/-- Modelled from the spec: the consumed primary-network DHT interface of
spec section 6 (`put(CID, bytes)`, `get(CID) → option<bytes>`), an ideal
key-value store.  The implementation behind `P2PNode::dht_put/dht_get` is the
external saorsa-core crate, not code of this repository. -/
def Dht := List (XorName × List Byte)

/-- DHT `put`: the new binding shadows any previous binding of the key. -/
def Dht.put (d : Dht) (k : XorName) (v : List Byte) : Dht := (k, v) :: d

/-- DHT `get`: first binding of the key wins. -/
def Dht.get (d : Dht) (k : XorName) : Option (List Byte) := List.lookup k d

theorem Dht.get_put (d : Dht) (k : XorName) (v : List Byte) :
    (d.put k v).get k = some v := by
  simp [Dht.put, Dht.get, List.lookup]

/-- `QuantumClient` from src/src/client/quantum.rs; the `config` field
(timeouts, replica count) is read but never used by the embedded operations,
so only the optional P2P-node handle is carried.  The handle is modelled as
the DHT state it gives access to. -/
structure QuantumClient where
  p2p_node : Option Dht

/-- `QuantumClient::put_chunk` (src/src/client/quantum.rs:145-179): fail with
`Network` when the node handle is absent, otherwise store the content at its
SHA-256 address.  `sha256` stands for the external sha2 crate. -/
def QuantumClient.put_chunk (sha256 : List Byte → XorName) (c : QuantumClient)
    (content : List Byte) : Except Error (XorName × QuantumClient) :=
  match c.p2p_node with
  | none => .error (.Network "P2P node not configured")
  | some dht =>
    let address := sha256 content
    .ok (address, ⟨some (dht.put address content)⟩)

/-- `QuantumClient::get_chunk` (src/src/client/quantum.rs:91-127): DHT hit is
wrapped as a `DataChunk` with source `Saorsa`. -/
def QuantumClient.get_chunk (c : QuantumClient) (address : XorName) :
    Except Error (Option DataChunk) :=
  match c.p2p_node with
  | none => .error (.Network "P2P node not configured")
  | some dht =>
    match dht.get address with
    | some data => .ok (some ⟨address, data, .Saorsa⟩)
    | none => .ok none

/-- The bytes of the address-derivation prefix `b"scratchpad:"` used by
`put_scratchpad` (src/src/client/quantum.rs:232). -/
def scratchpadPrefix : List Byte := [115, 99, 114, 97, 116, 99, 104, 112, 97, 100, 58]

/-- The scratchpad address derivation of src/src/client/quantum.rs:230-236:
`SHA-256("scratchpad:" ++ owner)`. -/
def scratchpad_address (sha256 : List Byte → XorName) (owner : List Byte) : XorName :=
  sha256 (scratchpadPrefix ++ owner)

/-- Modelled from the spec: the self-describing binary encoding
(`rmp_serde::to_vec`, an external crate) of a scratchpad entry.  Variable
length fields are length-prefixed; the `source` field carries
`#[serde(skip)]` in the source and is therefore not encoded. -/
def encodeScratchpad (e : ScratchpadEntry) : List Byte :=
  e.owner.length :: e.owner
    ++ e.content_type :: e.payload.length :: e.payload
    ++ e.counter :: e.signature.length :: e.signature

/-- `QuantumClient::put_scratchpad` (src/src/client/quantum.rs:197-253):
assemble the entry with a placeholder 64-byte signature, serialize it, and
`dht_put` it at the owner-derived address.  No stored record is read and no
counter is compared. -/
def QuantumClient.put_scratchpad (sha256 : List Byte → XorName) (c : QuantumClient)
    (owner : List Byte) (content_type : Nat) (payload : List Byte) (counter : Nat) :
    Except Error (ScratchpadEntry × QuantumClient) :=
  match c.p2p_node with
  | none => .error (.Network "P2P node not configured")
  | some dht =>
    let signature := List.replicate 64 0
    let entry : ScratchpadEntry := ⟨owner, content_type, payload, counter, signature, .Saorsa⟩
    let serialized := encodeScratchpad entry
    let address := scratchpad_address sha256 owner
    .ok (entry, ⟨some (dht.put address serialized)⟩)

/-- C5: for every byte string b stored through `put_chunk` on a primary
client with a configured node, the returned address is SHA-256(b), and
`get_chunk` at that address on the resulting state returns a chunk whose
content is b, whose address is SHA-256(b) and whose source is the primary
(`Saorsa`) network. -/
theorem put_then_get_chunk (sha256 : List Byte → XorName) (dht : Dht) (b : List Byte) :
    ∃ c' : QuantumClient,
      QuantumClient.put_chunk sha256 ⟨some dht⟩ b = .ok (sha256 b, c') ∧
      c'.get_chunk (sha256 b) = .ok (some ⟨sha256 b, b, DataSource.Saorsa⟩) := by
  refine ⟨⟨some (dht.put (sha256 b) b)⟩, rfl, ?_⟩
  simp [QuantumClient.get_chunk, Dht.get_put]

/-- C1: `put_scratchpad` enforces no counter monotonicity.  Writing counter 5
and then counter 3 for the same owner both succeed, and the record stored at
the owner's address afterwards is the serialized counter-3 entry, which
differs from the serialized counter-5 entry: the lower-counter write is
neither rejected nor without effect. -/
theorem put_scratchpad_last_write_wins (sha256 : List Byte → XorName) (dht : Dht)
    (owner : List Byte) :
    ∃ (e5 e3 : ScratchpadEntry) (c1 c2 : QuantumClient) (d2 : Dht),
      QuantumClient.put_scratchpad sha256 ⟨some dht⟩ owner 7 [9] 5 = .ok (e5, c1) ∧
      QuantumClient.put_scratchpad sha256 c1 owner 7 [9] 3 = .ok (e3, c2) ∧
      e5.counter = 5 ∧ e3.counter = 3 ∧
      c2.p2p_node = some d2 ∧
      d2.get (scratchpad_address sha256 owner) = some (encodeScratchpad e3) ∧
      encodeScratchpad e3 ≠ encodeScratchpad e5 := by
  refine ⟨_, _, _, _, _, rfl, rfl, rfl, rfl, rfl, Dht.get_put _ _ _, ?_⟩
  intro h
  simp [encodeScratchpad] at h

/-- `CacheStats` from src/src/payment/cache.rs. -/
structure CacheStats where
  hits : Nat
  misses : Nat
  additions : Nat
deriving DecidableEq

/-- `VerifiedCache` from src/src/payment/cache.rs: a fixed-capacity LRU over
`XorName`, entries kept most-recent first. -/
structure VerifiedCache where
  cap : Nat
  entries : List XorName
  stats : CacheStats
deriving DecidableEq

/-- `VerifiedCache::with_capacity` (src/src/payment/cache.rs:64-74):
capacity 0 is promoted to 1. -/
def VerifiedCache.with_capacity (capacity : Nat) : VerifiedCache :=
  ⟨max capacity 1, [], ⟨0, 0, 0⟩⟩

/-- `VerifiedCache::contains` (src/src/payment/cache.rs:80-92): an
`LruCache::get` that promotes a found entry to most-recent and bumps the
hit/miss counters. -/
def VerifiedCache.contains (c : VerifiedCache) (x : XorName) : Bool × VerifiedCache :=
  if x ∈ c.entries then
    (true, ⟨c.cap, x :: c.entries.erase x, ⟨c.stats.hits + 1, c.stats.misses, c.stats.additions⟩⟩)
  else
    (false, ⟨c.cap, c.entries, ⟨c.stats.hits, c.stats.misses + 1, c.stats.additions⟩⟩)

/-- `VerifiedCache::insert` (src/src/payment/cache.rs:97-100): an
`LruCache::put` that makes the entry most-recent and evicts past capacity. -/
def VerifiedCache.insert (c : VerifiedCache) (x : XorName) : VerifiedCache :=
  ⟨c.cap, (x :: c.entries.erase x).take c.cap,
    ⟨c.stats.hits, c.stats.misses, c.stats.additions + 1⟩⟩

/-- `PaymentStatus` from src/src/payment/verifier.rs. -/
inductive PaymentStatus where
  | CachedAsVerified
  | PaymentRequired
  | PaymentVerified
deriving DecidableEq

/-- `PaymentStatus::can_store` (src/src/payment/verifier.rs:65-67). -/
def PaymentStatus.can_store : PaymentStatus → Bool
  | .CachedAsVerified => true
  | .PaymentVerified => true
  | .PaymentRequired => false

/-- `EvmVerifierConfig` from src/src/payment/verifier.rs; the `network` field
is an external evmlib handle and carries no behaviour in the embedded flow. -/
structure EvmVerifierConfig where
  enabled : Bool

/-- `PaymentVerifierConfig` from src/src/payment/verifier.rs. -/
structure PaymentVerifierConfig where
  evm : EvmVerifierConfig
  cache_capacity : Nat

/-- `PaymentVerifier` from src/src/payment/verifier.rs. -/
structure PaymentVerifier where
  cache : VerifiedCache
  config : PaymentVerifierConfig

/-- `PaymentVerifier::new` (src/src/payment/verifier.rs:91-100). -/
def PaymentVerifier.new (config : PaymentVerifierConfig) : PaymentVerifier :=
  ⟨VerifiedCache.with_capacity config.cache_capacity, config⟩

/-- One `(encoded_peer_id, quote)` pair of an `ant_evm::ProofOfPayment`.  The
two fields record the outcomes of the external ant_evm calls on it:
`peer_id` is the result of `encoded_peer_id.to_peer_id()` (peer ids modelled
as naturals) and `signed_by_claimed_peer` is what
`quote.check_is_signed_by_claimed_peer(peer_id)` returns for the parsed id. -/
structure PeerQuote where
  peer_id : Except String Nat
  signed_by_claimed_peer : Bool

/-- `ant_evm::ProofOfPayment`: a list of `(peer_id, signed_quote)` pairs
(spec section 3). -/
structure ProofOfPayment where
  peer_quotes : List PeerQuote

/-- Modelled from the spec: `ProofOfPayment::digest` of the external ant_evm
crate, "a digest over" the quote pairs — one quote hash per pair, so the
digest is empty exactly when the proof has no quotes.  `quoteHash` stands for
the external per-quote hash. -/
def ProofOfPayment.digest (p : ProofOfPayment) (quoteHash : PeerQuote → List Byte) :
    List (List Byte) :=
  p.peer_quotes.map quoteHash

/-- Outcome of the external on-chain call
`evmlib::contract::payment_vault::verify_data_payment`
(src/src/payment/verifier.rs:261-267). -/
inductive EvmCallResult where
  | success : Nat → EvmCallResult
  | paymentInvalid : EvmCallResult
  | otherError : String → EvmCallResult

/-- The quote-signature loop of `verify_evm_payment`
(src/src/payment/verifier.rs:238-248): fail on the first pair whose peer id
does not parse or whose quote signature does not verify. -/
def checkQuoteSignatures : List PeerQuote → Except Error Unit
  | [] => .ok ()
  | q :: rest =>
    match q.peer_id with
    | .error _ => .error (.Payment "Invalid peer ID in payment proof")
    | .ok _ =>
      if q.signed_by_claimed_peer then checkQuoteSignatures rest
      else .error (.Payment "Quote signature invalid for peer")

/-- `PaymentVerifier::verify_evm_payment` (src/src/payment/verifier.rs:224-283).
The returned boolean records whether the on-chain RPC was performed.  Note the
source checks `config.evm.enabled` FIRST and accepts immediately when
disabled, before any quote-signature or empty-digest check. -/
def PaymentVerifier.verify_evm_payment (v : PaymentVerifier)
    (quoteHash : PeerQuote → List Byte) (evmCall : EvmCallResult)
    (payment : ProofOfPayment) : Except Error Unit × Bool :=
  if !v.config.evm.enabled then (.ok (), false)
  else
    match checkQuoteSignatures payment.peer_quotes with
    | .error e => (.error e, false)
    | .ok () =>
      let payment_digest := payment.digest quoteHash
      if payment_digest.isEmpty then (.error (.Payment "Payment has no quotes"), false)
      else
        match evmCall with
        | .success _ => (.ok (), true)
        | .paymentInvalid => (.error (.Payment "Payment verification failed on-chain"), true)
        | .otherError _ => (.error (.Payment "EVM verification error"), true)

/-- `PaymentVerifier::check_payment_required` (src/src/payment/verifier.rs:116-129):
cache hit gives `CachedAsVerified`, otherwise `PaymentRequired`.  The updated
cache (LRU order and hit/miss counters) is threaded through. -/
def PaymentVerifier.check_payment_required (v : PaymentVerifier) (xorname : XorName) :
    PaymentStatus × PaymentVerifier :=
  match v.cache.contains xorname with
  | (true, cache) => (.CachedAsVerified, ⟨cache, v.config⟩)
  | (false, cache) => (.PaymentRequired, ⟨cache, v.config⟩)

/-- `PaymentVerifier::verify_payment` (src/src/payment/verifier.rs:150-199).
`deser` stands for the external `rmp_serde::from_slice` on proof bytes; the
returned boolean records whether the on-chain RPC was performed.  The final
branch embeds the source's unreachable `PaymentVerified` arm of the match on
`check_payment_required`. -/
def PaymentVerifier.verify_payment (v : PaymentVerifier)
    (deser : List Byte → Except String ProofOfPayment)
    (quoteHash : PeerQuote → List Byte) (evmCall : EvmCallResult)
    (xorname : XorName) (payment_proof : Option (List Byte)) :
    Except Error PaymentStatus × PaymentVerifier × Bool :=
  match v.check_payment_required xorname with
  | (.CachedAsVerified, v1) => (.ok .CachedAsVerified, v1, false)
  | (.PaymentRequired, v1) =>
    match payment_proof with
    | some proof =>
      if proof.isEmpty then (.error (.Payment "Empty payment proof"), v1, false)
      else
        match deser proof with
        | .error _ => (.error (.Payment "Failed to deserialize payment proof"), v1, false)
        | .ok payment =>
          match v1.verify_evm_payment quoteHash evmCall payment with
          | (.error e, called) => (.error e, v1, called)
          | (.ok _, called) =>
            (.ok .PaymentVerified, ⟨v1.cache.insert xorname, v1.config⟩, called)
    | none => (.error (.Payment "Payment required for new data"), v1, false)
  | (.PaymentVerified, v1) => (.ok .PaymentVerified, v1, false)

/-- A quote pair on which the signature loop must fail: its peer id does not
parse, or its quote signature does not verify for the claimed peer. -/
def PeerQuote.fails (q : PeerQuote) : Prop :=
  (∃ s, q.peer_id = .error s) ∨ q.signed_by_claimed_peer = false

theorem checkQuoteSignatures_error_of_fails {l : List PeerQuote}
    (h : ∃ q ∈ l, q.fails) : ∃ m, checkQuoteSignatures l = .error (.Payment m) := by
  induction l with
  | nil => simp at h
  | cons q rest ih =>
    match hq : q.peer_id with
    | .error s => exact ⟨"Invalid peer ID in payment proof", by simp [checkQuoteSignatures, hq]⟩
    | .ok pid =>
      by_cases hs : q.signed_by_claimed_peer
      · have : ∃ r ∈ rest, r.fails := by
          rcases h with ⟨r, hr, hf⟩
          rcases List.mem_cons.mp hr with rfl | hr'
          · rcases hf with ⟨s, hse⟩ | hb
            · rw [hq] at hse; cases hse
            · rw [hb] at hs; cases hs
          · exact ⟨r, hr', hf⟩
        rcases ih this with ⟨m, hm⟩
        exact ⟨m, by simp [checkQuoteSignatures, hq, hs, hm]⟩
      · exact ⟨"Quote signature invalid for peer", by
          simp [checkQuoteSignatures, hq, hs]⟩

/-- C2 counterexample: with EVM verification disabled, `verify_evm_payment`
accepts (without any on-chain call) both a proof whose single quote fails its
signature check and a proof with zero quotes — the claimed Payment failures
do not occur in the disabled configuration. -/
theorem evm_disabled_skips_checks :
    (PaymentVerifier.new ⟨⟨false⟩, 100⟩).verify_evm_payment (fun _ => [0])
      .paymentInvalid ⟨[⟨.ok 0, false⟩]⟩ = (.ok (), false) ∧
    (PaymentVerifier.new ⟨⟨false⟩, 100⟩).verify_evm_payment (fun _ => [0])
      .paymentInvalid ⟨[]⟩ = (.ok (), false) :=
  ⟨rfl, rfl⟩

/-- C2 (amended): when EVM verification is ENABLED, `verify_evm_payment`
fails with a Payment error on every proof that has zero quotes or contains a
pair whose peer id does not parse or whose quote signature does not verify,
and the RPC-performed flag is `false`: the failure happens before any
on-chain call, whatever the on-chain outcome would have been. -/
theorem verify_evm_payment_rejects_when_enabled (v : PaymentVerifier)
    (quoteHash : PeerQuote → List Byte) (evmCall : EvmCallResult)
    (p : ProofOfPayment) (hen : v.config.evm.enabled = true)
    (hbad : p.peer_quotes = [] ∨ ∃ q ∈ p.peer_quotes, q.fails) :
    ∃ m, v.verify_evm_payment quoteHash evmCall p = (.error (.Payment m), false) := by
  rcases hbad with hempty | hfail
  · exact ⟨"Payment has no quotes", by
      simp [PaymentVerifier.verify_evm_payment, hen, checkQuoteSignatures,
        ProofOfPayment.digest, hempty]⟩
  · rcases checkQuoteSignatures_error_of_fails hfail with ⟨m, hm⟩
    exact ⟨m, by simp [PaymentVerifier.verify_evm_payment, hen, hm]⟩

/-- C2 witness: a zero-quote proof is rejected by an enabled verifier with no
on-chain call, even though the on-chain outcome supplied is a failure. -/
theorem verify_evm_payment_rejects_when_enabled_witness :
    ∃ m, (PaymentVerifier.new ⟨⟨true⟩, 100⟩).verify_evm_payment (fun _ => [0])
      .paymentInvalid ⟨[]⟩ = (.error (.Payment m), false) :=
  verify_evm_payment_rejects_when_enabled _ _ _ _ rfl (.inl rfl)

theorem VerifiedCache.cap_contains (c : VerifiedCache) (x : XorName) :
    (c.contains x).2.cap = c.cap := by
  unfold VerifiedCache.contains
  split <;> rfl

theorem VerifiedCache.mem_insert (c : VerifiedCache) (x : XorName)
    (hcap : 1 ≤ c.cap) : x ∈ (c.insert x).entries := by
  unfold VerifiedCache.insert
  match hc : c.cap, hcap with
  | n + 1, _ => simp [List.take_succ_cons]

theorem check_payment_required_fst (v : PaymentVerifier) (x : XorName) :
    (v.check_payment_required x).1 = .CachedAsVerified ∨
    (v.check_payment_required x).1 = .PaymentRequired := by
  unfold PaymentVerifier.check_payment_required
  split <;> simp

theorem check_payment_required_snd (v : PaymentVerifier) (x : XorName)
    (st : PaymentStatus) (v1 : PaymentVerifier)
    (h : v.check_payment_required x = (st, v1)) :
    v1 = ⟨(v.cache.contains x).2, v.config⟩ := by
  unfold PaymentVerifier.check_payment_required at h
  split at h <;> simp_all

theorem verify_payment_verified_inv (v : PaymentVerifier)
    (deser : List Byte → Except String ProofOfPayment)
    (quoteHash : PeerQuote → List Byte) (evmCall : EvmCallResult)
    (x : XorName) (p : List Byte) (v' : PaymentVerifier) (b : Bool)
    (h : v.verify_payment deser quoteHash evmCall x (some p) =
      (.ok .PaymentVerified, v', b)) :
    v'.cache = (v.cache.contains x).2.insert x := by
  unfold PaymentVerifier.verify_payment at h
  split at h
  case h_1 v1 heq =>
    injection h with h1 h2
    injection h1 with ha
    cases ha
  case h_3 v1 heq =>
    rcases check_payment_required_fst v x with h1 | h1 <;> rw [heq] at h1 <;> cases h1
  case h_2 v1 heq =>
    have hv1 := check_payment_required_snd v x _ v1 heq
    subst hv1
    repeat' split at h
    all_goals
      injection h with h1 h2
      first
        | (injection h2 with h3 h4; subst h3; rfl)
        | injection h1

theorem verify_payment_cached_of_contains (v : PaymentVerifier)
    (deser : List Byte → Except String ProofOfPayment)
    (quoteHash : PeerQuote → List Byte) (evmCall : EvmCallResult) (x : XorName)
    (hc : x ∈ v.cache.entries) :
    v.verify_payment deser quoteHash evmCall x none =
      (.ok .CachedAsVerified,
        ⟨⟨v.cache.cap, x :: v.cache.entries.erase x,
          ⟨v.cache.stats.hits + 1, v.cache.stats.misses, v.cache.stats.additions⟩⟩,
         v.config⟩, false) := by
  simp [PaymentVerifier.verify_payment, PaymentVerifier.check_payment_required,
    VerifiedCache.contains, hc]

/-- C8: if `verify_payment(x, Some(p))` succeeds with `PaymentVerified`, then
a subsequent `verify_payment(x, None)` on the resulting verifier returns
`CachedAsVerified` and performs no EVM call (final `false` component),
whatever externals the second call is given. -/
theorem verify_payment_then_cached (v : PaymentVerifier)
    (deser deser2 : List Byte → Except String ProofOfPayment)
    (quoteHash quoteHash2 : PeerQuote → List Byte)
    (evmCall evmCall2 : EvmCallResult)
    (x : XorName) (p : List Byte) (v' : PaymentVerifier) (b : Bool)
    (hcap : 1 ≤ v.cache.cap)
    (h : v.verify_payment deser quoteHash evmCall x (some p) =
      (.ok .PaymentVerified, v', b)) :
    ∃ v'', v'.verify_payment deser2 quoteHash2 evmCall2 x none =
      (.ok .CachedAsVerified, v'', false) := by
  have hcache := verify_payment_verified_inv v deser quoteHash evmCall x p v' b h
  have hmem : x ∈ v'.cache.entries := by
    rw [hcache]
    exact VerifiedCache.mem_insert _ _ (by rw [VerifiedCache.cap_contains]; exact hcap)
  exact ⟨_, verify_payment_cached_of_contains v' deser2 quoteHash2 evmCall2 x hmem⟩

/-- C8 witness: a concrete verified-then-cached run (EVM disabled so that the
first call accepts a trivial deserializable proof). -/
theorem verify_payment_then_cached_witness :
    ∃ v'', ((PaymentVerifier.new ⟨⟨false⟩, 100⟩).verify_payment
        (fun _ => .ok ⟨[]⟩) (fun _ => [0]) .paymentInvalid [1] (some [2])).2.1.verify_payment
        (fun _ => .ok ⟨[]⟩) (fun _ => [0]) .paymentInvalid [1] none =
      (.ok .CachedAsVerified, v'', false) :=
  verify_payment_then_cached (PaymentVerifier.new ⟨⟨false⟩, 100⟩)
    (fun _ => .ok ⟨[]⟩) (fun _ => .ok ⟨[]⟩) (fun _ => [0]) (fun _ => [0])
    .paymentInvalid .paymentInvalid [1] [2] _ _ (by decide) rfl

/-- C10: every successful result of `verify_payment` is `CachedAsVerified` or
`PaymentVerified` — never `PaymentRequired` — and `can_store` holds for it. -/
theorem verify_payment_ok_can_store (v : PaymentVerifier)
    (deser : List Byte → Except String ProofOfPayment)
    (quoteHash : PeerQuote → List Byte) (evmCall : EvmCallResult)
    (x : XorName) (pr : Option (List Byte)) (s : PaymentStatus)
    (v' : PaymentVerifier) (b : Bool)
    (h : v.verify_payment deser quoteHash evmCall x pr = (.ok s, v', b)) :
    (s = .CachedAsVerified ∨ s = .PaymentVerified) ∧ s.can_store = true := by
  unfold PaymentVerifier.verify_payment at h
  repeat' split at h
  all_goals
    injection h with h1 h2
    first
      | (injection h1 with hs; subst hs; simp [PaymentStatus.can_store])
      | injection h1

/-- C10 witness: the cached path at a concrete input. -/
theorem verify_payment_ok_can_store_witness :
    (PaymentStatus.PaymentVerified = .CachedAsVerified ∨
      PaymentStatus.PaymentVerified = .PaymentVerified) ∧
    PaymentStatus.PaymentVerified.can_store = true :=
  verify_payment_ok_can_store (PaymentVerifier.new ⟨⟨false⟩, 100⟩)
    (fun _ => .ok ⟨[]⟩) (fun _ => [0]) .paymentInvalid [1] (some [2]) _ _ _ rfl

/-- `HybridStats` from src/src/client/data_types.rs. -/
structure HybridStats where
  saorsa_hits : Nat
  autonomi_hits : Nat
  cache_hits : Nat
  misses : Nat
  saorsa_writes : Nat
  migrations : Nat
deriving DecidableEq

/-- The all-zero `HybridStats::default()`. -/
def HybridStats.zero : HybridStats := ⟨0, 0, 0, 0, 0, 0⟩

/-- `HybridClient::get_chunk` (src/src/client/hybrid.rs:162-196), embedded
over the outcomes of its three sub-calls: `qres` is the primary
(`quantum.get_chunk`) result, `lres` the legacy (`legacy.get_chunk`) result,
and `putres` the `quantum.put_chunk` result inside `migrate_chunk`
(src/src/client/hybrid.rs:487-504), only consulted on a legacy hit with
auto-migration on.  A primary error is swallowed (fall through to legacy); a
legacy error propagates through the `?` operator. -/
def hybrid_get_chunk (auto_migrate : Bool) (qres : Except Error (Option DataChunk))
    (lres : Except Error (Option DataChunk)) (putres : Except Error XorName)
    (stats : HybridStats) : Except Error (Option DataChunk) × HybridStats :=
  match qres with
  | .ok (some chunk) =>
    (.ok (some chunk), { stats with saorsa_hits := stats.saorsa_hits + 1 })
  | _ =>
    match lres with
    | .error e => (.error e, stats)
    | .ok (some chunk) =>
      let stats1 := { stats with autonomi_hits := stats.autonomi_hits + 1 }
      if auto_migrate then
        match putres with
        | .error e => (.error e, stats1)
        | .ok _ =>
          (.ok (some chunk), { stats1 with migrations := stats1.migrations + 1 })
      else (.ok (some chunk), stats1)
    | .ok none => (.ok none, { stats with misses := stats.misses + 1 })

/-- `HybridClient::exists` (src/src/client/hybrid.rs:472-484), embedded over
the outcomes of the two probes: found on primary gives `Saorsa`; otherwise a
legacy error propagates through `?`, a legacy hit gives `Autonomi`, and a
legacy miss gives `none`.  The primary probe is consulted only through
`matches!(…, Ok(true))`, so its errors are swallowed. -/
def hybrid_exists (qres : Except Error Bool) (lres : Except Error Bool) :
    Except Error (Option DataSource) :=
  match qres with
  | .ok true => .ok (some .Saorsa)
  | _ =>
    match lres with
    | .error e => .error e
    | .ok true => .ok (some .Autonomi)
    | .ok false => .ok none

/-- C4 counterexample: primary miss (`Ok(None)`) followed by a legacy
`Network` failure makes `get_chunk` return that error — not a successful
`None` as the claim states. -/
theorem hybrid_get_chunk_legacy_error_is_error :
    (hybrid_get_chunk true (.ok none) (.error (.Network "Autonomi query timed out"))
      (.ok [0]) HybridStats.zero).1 =
      .error (.Network "Autonomi query timed out") ∧
    (hybrid_get_chunk true (.ok none) (.error (.Network "Autonomi query timed out"))
      (.ok [0]) HybridStats.zero).1 ≠ .ok none := by
  refine ⟨rfl, ?_⟩
  intro h
  simp [hybrid_get_chunk] at h

/-- C4 (amended): when the primary probe misses or errors and the legacy
probe fails with an error, `get_chunk` propagates that error (it does not
return `None`); in the same situation `exists` propagates the legacy error
as well. -/
theorem hybrid_legacy_error_propagates (auto_migrate : Bool) (e e2 : Error)
    (qres : Except Error (Option DataChunk)) (qres2 : Except Error Bool)
    (putres : Except Error XorName) (stats : HybridStats)
    (hq : qres = .ok none ∨ ∃ e0, qres = .error e0)
    (hq2 : qres2 ≠ .ok true) :
    (hybrid_get_chunk auto_migrate qres (.error e) putres stats).1 = .error e ∧
    hybrid_exists qres2 (.error e2) = .error e2 := by
  constructor
  · rcases hq with rfl | ⟨e0, rfl⟩ <;> rfl
  · unfold hybrid_exists
    match qres2, hq2 with
    | .ok true, h => exact absurd rfl h
    | .ok false, _ => rfl
    | .error e0, _ => rfl

/-- C4 witness: the amended behaviour at concrete probe outcomes. -/
theorem hybrid_legacy_error_propagates_witness :
    (hybrid_get_chunk true (.ok none) (.error (.Network "Autonomi query failed"))
      (.ok [0]) HybridStats.zero).1 = .error (.Network "Autonomi query failed") ∧
    hybrid_exists (.ok false) (.error (.Network "Autonomi query failed")) =
      .error (.Network "Autonomi query failed") :=
  hybrid_legacy_error_propagates true _ _ _ _ _ _ (.inl rfl) (by simp)

/-- `PointerRecord` from src/src/client/data_types.rs. -/
structure PointerRecord where
  owner : List Byte
  counter : Nat
  target : XorName
  signature : List Byte
  source : DataSource
deriving DecidableEq

/-- `GraphEntry` from src/src/client/data_types.rs. -/
structure GraphEntry where
  owner : List Byte
  parents : List XorName
  content : List Byte
  descendants : List XorName
  source : DataSource
deriving DecidableEq

/-- `LegacyClient` from src/src/client/legacy.rs: the `enabled` flag of its
config and the optional autonomi client handle (the handle itself is the
external autonomi crate, so only its presence is carried). -/
structure LegacyClient where
  enabled : Bool
  connected : Bool

/-- `LegacyClient::get_scratchpad` (src/src/client/legacy.rs:233-254): with
no client handle return `Ok(None)`; with a handle, still return `Ok(None)`
because a 48-byte BLS scratchpad address cannot be built from a 32-byte
owner id.  The boolean records whether the network was contacted — no branch
performs a network call. -/
def LegacyClient.get_scratchpad (c : LegacyClient) (owner : List Byte) :
    (Except Error (Option ScratchpadEntry)) × Bool :=
  let _ := owner
  if c.connected = false then (.ok none, false)
  else (.ok none, false)

/-- `LegacyClient::get_pointer` (src/src/client/legacy.rs:278-299): same
shape as `get_scratchpad`, for pointers. -/
def LegacyClient.get_pointer (c : LegacyClient) (owner : List Byte) :
    (Except Error (Option PointerRecord)) × Bool :=
  let _ := owner
  if c.connected = false then (.ok none, false)
  else (.ok none, false)

/-- `LegacyClient::get_graph_entry` (src/src/client/legacy.rs:323-344): same
shape as `get_scratchpad`, for graph entries. -/
def LegacyClient.get_graph_entry (c : LegacyClient) (owner : List Byte) :
    (Except Error (Option GraphEntry)) × Bool :=
  let _ := owner
  if c.connected = false then (.ok none, false)
  else (.ok none, false)

/-- C6: for every owner identifier and every legacy-client state (enabled,
disabled, connected or not), `get_scratchpad`, `get_pointer` and
`get_graph_entry` return `Ok(None)` without contacting the network. -/
theorem legacy_mutable_gets_always_none (c : LegacyClient) (owner : List Byte) :
    c.get_scratchpad owner = (.ok none, false) ∧
    c.get_pointer owner = (.ok none, false) ∧
    c.get_graph_entry owner = (.ok none, false) := by
  refine ⟨?_, ?_, ?_⟩ <;>
    simp [LegacyClient.get_scratchpad, LegacyClient.get_pointer,
      LegacyClient.get_graph_entry]

/-- `SIGNATURE_SIZE` from src/src/upgrade/signature.rs:16. -/
def SIGNATURE_SIZE : Nat := 3309

/-- `PUBLIC_KEY_SIZE` from src/src/upgrade/signature.rs:19. -/
def PUBLIC_KEY_SIZE : Nat := 1952

/-- `RELEASE_SIGNING_KEY` from src/src/upgrade/signature.rs:27: the embedded
release signing key, an empty byte string in the shipped source. -/
def RELEASE_SIGNING_KEY : List Byte := []

/-- Parsed ML-DSA-65 public key (external saorsa-pqc type, carried opaquely). -/
def MlDsaPublicKey := List Byte

/-- Parsed ML-DSA-65 signature (external saorsa-pqc type, carried opaquely). -/
def MlDsaSignature := List Byte

/-- `verify_binary_signature_with_key` (src/src/upgrade/signature.rs:76-117),
embedded over the outcomes of its external calls: `readBinary` is the result
of reading the binary file, `parseSig` stands for
`MlDsaSignature::from_bytes`, and `verifyCtx` for the context-bound ML-DSA-65
`verify_with_context` on the read content. -/
def verify_binary_signature_with_key (readBinary : Except String (List Byte))
    (signature : List Byte) (parseSig : List Byte → Except String MlDsaSignature)
    (verifyCtx : List Byte → MlDsaSignature → Except String Bool)
    (public_key : MlDsaPublicKey) : Except Error Unit :=
  let _ := public_key
  match readBinary with
  | .error _ => .error (.Crypto "Failed to read binary")
  | .ok binary_content =>
    if signature.length ≠ SIGNATURE_SIZE then
      .error (.Crypto "Invalid signature size")
    else
      match parseSig signature with
      | .error _ => .error (.Crypto "Invalid signature format")
      | .ok sig =>
        match verifyCtx binary_content sig with
        | .error _ => .error (.Crypto "Signature verification error")
        | .ok true => .ok ()
        | .ok false => .error (.Crypto "Signature verification failed: invalid signature")

/-- `verify_binary_signature` (src/src/upgrade/signature.rs:43-56): fail with
a Crypto error when the embedded release key is empty, otherwise parse the
key (`parseKey` stands for `MlDsaPublicKey::from_bytes`) and delegate to
`verify_binary_signature_with_key`. -/
def verify_binary_signature (readBinary : Except String (List Byte))
    (signature : List Byte) (parseKey : List Byte → Except String MlDsaPublicKey)
    (parseSig : List Byte → Except String MlDsaSignature)
    (verifyCtx : MlDsaPublicKey → List Byte → MlDsaSignature → Except String Bool) :
    Except Error Unit :=
  if RELEASE_SIGNING_KEY.isEmpty then
    .error (.Crypto "Release signing key not configured")
  else
    match parseKey RELEASE_SIGNING_KEY with
    | .error _ => .error (.Crypto "Invalid release key")
    | .ok pk =>
      verify_binary_signature_with_key readBinary signature parseSig (verifyCtx pk) pk

/-- C9: with the embedded release key empty (as in the source), every call of
`verify_binary_signature` — whatever the binary contents, the signature bytes
and the external parsing and verification outcomes — fails with the
configured-key Crypto error; in particular it never accepts. -/
theorem verify_binary_signature_empty_key_fails
    (readBinary : Except String (List Byte)) (signature : List Byte)
    (parseKey : List Byte → Except String MlDsaPublicKey)
    (parseSig : List Byte → Except String MlDsaSignature)
    (verifyCtx : MlDsaPublicKey → List Byte → MlDsaSignature → Except String Bool) :
    verify_binary_signature readBinary signature parseKey parseSig verifyCtx =
      .error (.Crypto "Release signing key not configured") := rfl

/-- `RecordType` from src/src/migration/mod.rs. -/
inductive RecordType where
  | Chunk
  | Register
  | Scratchpad
  | GraphEntry
  | Unknown
deriving DecidableEq

/-- `ProcessResult` from src/src/migration/mod.rs. -/
inductive ProcessResult where
  | Migrated
  | Skipped
deriving DecidableEq

/-- `AntRecord` from src/src/migration/mod.rs (the `path` field is dropped:
it only labels the record). -/
structure AntRecord where
  record_type : RecordType
  content : List Byte

/-- `AntDataMigrator::process_record` (src/src/migration/mod.rs:248-326),
embedded over the outcomes of its external calls: `readRes` is the file read,
`record_type` the result of `detect_record_type`, `xorname` the result of
`extract_xorname_from_path`, `deriveKeyRes` the result of
`decrypt::derive_record_key` and `decryptRes` the result of
`decrypt::decrypt_with_embedded_nonce` (src/src/migration/decrypt.rs is not
in the source tree; only these outcomes matter here).  The second component
of a successful result lists the payloads handed to the primary client's
`put_*` operations — the source performs NO network store (the placeholder
comment at src/src/migration/mod.rs:316-325 marks the record migrated
without uploading it), so that list is always empty. -/
def process_record (master_key : Option (List Byte))
    (readRes : Except String (List Byte)) (record_type : RecordType)
    (xorname : Option XorName) (deriveKeyRes : Except String (List Byte))
    (decryptRes : Except String (List Byte)) :
    Except Error (ProcessResult × List (List Byte)) :=
  match readRes with
  | .error _ => .error (.Migration "Failed to read record")
  | .ok content =>
    if content.isEmpty then .ok (.Skipped, [])
    else
      let decrypted_content :=
        match master_key, xorname with
        | some _, some _ =>
          match deriveKeyRes with
          | .ok _ =>
            match decryptRes with
            | .ok data => data
            | .error _ => content
          | .error _ => content
        | _, _ => content
      let _record : AntRecord := ⟨record_type, decrypted_content⟩
      .ok (.Migrated, [])

/-- C3: `process_record` counts every non-empty record as `Migrated` while
handing NOTHING to the primary client — the list of payloads stored on the
primary network is empty on every successful run, and in particular a
concrete one-byte record is reported migrated with no store. -/
theorem process_record_migrated_without_put :
    process_record none (.ok [1]) .Chunk none (.error "no key") (.error "no key") =
      .ok (.Migrated, []) ∧
    ∀ (mk : Option (List Byte)) (rr : Except String (List Byte)) (rt : RecordType)
      (xn : Option XorName) (dk dc : Except String (List Byte))
      (res : ProcessResult × List (List Byte)),
      process_record mk rr rt xn dk dc = .ok res → res.2 = [] := by
  refine ⟨rfl, ?_⟩
  intro mk rr rt xn dk dc res h
  unfold process_record at h
  repeat' split at h
  all_goals first
    | (injection h with h1; subst h1; rfl)
    | injection h

/-- C3 witness: the no-store fact applied at the concrete one-byte record. -/
theorem process_record_migrated_without_put_witness :
    ((ProcessResult.Migrated, ([] : List (List Byte))).2 = []) :=
  process_record_migrated_without_put.2 none (.ok [1]) .Chunk none
    (.error "no key") (.error "no key") (.Migrated, []) rfl

end SaorsaNode
